import Mathlib

/-
Verification of the rf_serial_gui core: the input Validator
(src/rf_serial_gui/validator.py) and the serial ConnectionManager
(src/rf_serial_gui/serial_handler.py).

The Python code is shallowly embedded.  Python builtins used by the code
(str.strip, str.isdigit, int(), str(int), str.lower, substring test,
bytes.encode) are modelled as executable Lean functions over List Char,
restricted to the ASCII fragment the program manipulates.  The serial
transport (pyserial) is external, so each operation that touches the
transport takes the transport's outcome (open succeeded / raised, number
of bytes the write reported, ...) as an explicit argument.
-/

namespace RFSerial

/-! ## Configuration constants (config.py) -/

def SERIAL_PORT : String := "/dev/ttyUSB2"

def BAUD_RATE : Nat := 57600

def MIN_VALUE : Int := 0

def MAX_VALUE : Int := 100

/-! ## Models of the Python builtins -/

/-- Whitespace for Python str.strip (ASCII fragment). -/
def py_isspace (c : Char) : Bool :=
  c = ' ' || c = '\t' || c = '\n' || c = '\r' || c = '\x0b' || c = '\x0c'

/-- Model of Python str.strip(): drop whitespace from both ends. -/
def py_strip (l : List Char) : List Char :=
  ((l.dropWhile py_isspace).reverse.dropWhile py_isspace).reverse

/-- Model of Python str.isdigit() on ASCII strings: nonempty and all
decimal digits. -/
def py_isdigit (l : List Char) : Bool :=
  !l.isEmpty && l.all Char.isDigit

/-- Numeric value of an ASCII digit character. -/
def py_digit_val (c : Char) : Nat := c.toNat - 48

/-- Model of Python int() on a string of ASCII decimal digits
(most-significant digit first). -/
def py_int_digits (l : List Char) : Nat :=
  l.foldl (fun a c => 10 * a + py_digit_val c) 0

/-- Model of Python str.lower() (ASCII fragment). -/
def py_to_lower (l : List Char) : List Char := l.map Char.toLower

/-- Model of the Python substring test (pat in s). -/
def containsSubstr (l pat : List Char) : Bool :=
  match l with
  | [] => pat.isEmpty
  | c :: t => pat.isPrefixOf (c :: t) || containsSubstr t pat

/-- Digits of a positive number, least-significant first, with explicit
fuel (fuel bigger than the number suffices). -/
def py_str_nat_rev : Nat → Nat → List Char
  | 0, _ => []
  | fuel + 1, n => if n = 0 then [] else Nat.digitChar (n % 10) :: py_str_nat_rev fuel (n / 10)

/-- Model of Python str() on a nonnegative integer: decimal digits,
no leading zeros, and "0" for zero. -/
def py_str_nat (n : Nat) : List Char :=
  if n = 0 then ['0'] else (py_str_nat_rev (n + 1) n).reverse

/-- Model of Python str() on an integer: a leading minus sign for
negative values, decimal digits otherwise. -/
def py_str_int (v : Int) : List Char :=
  if v < 0 then '-' :: py_str_nat v.natAbs else py_str_nat v.toNat

/-- Model of bytes.encode("iso-8859-1") on the strings the program
produces: each character becomes the single byte of its code point
(all code points involved are ASCII, hence below 256). -/
def py_encode_latin1 (l : List Char) : List Nat := l.map Char.toNat

/-! ## Validator (validator.py) -/

/-- Test for stripped.startswith("-"). -/
def starts_with_dash (l : List Char) : Bool :=
  match l with
  | c :: _ => c == '-'
  | [] => false

/-- Embedding of Validator.validate.  Mirrors the source: empty or
whitespace-only input is valid; a single leading minus sign is allowed
syntactically; any other non-digit content yields the "Numbers only"
message; otherwise the value is parsed and range-checked against
MIN_VALUE and MAX_VALUE.  (The source's int() ValueError fallback is
unreachable once the digit checks have passed, and is therefore not a
separate branch here.) -/
def validate (input_str : String) : Bool × String :=
  let stripped := py_strip input_str.data
  if input_str.data.isEmpty || stripped.isEmpty then
    (true, "")
  else
    let neg := starts_with_dash stripped
    let digits_part := if neg then stripped.drop 1 else stripped
    if !py_isdigit digits_part then
      (false, "Invalid: Numbers only")
    else
      let value : Int :=
        if neg then -(py_int_digits digits_part : Int) else (py_int_digits digits_part : Int)
      if value < MIN_VALUE then (false, "Invalid: Min value is " ++ toString MIN_VALUE)
      else if value > MAX_VALUE then (false, "Invalid: Max value is " ++ toString MAX_VALUE)
      else (true, "")

/-! ## ConnectionManager (serial_handler.py) -/

inductive ConnectionStatus where
  | DISCONNECTED
  | CONNECTING
  | CONNECTED
  | ERROR
deriving DecidableEq

/-- The transport resource (a pyserial Serial object): all the handler
reads from it is whether it reports itself open. -/
structure SerialPort where
  is_open : Bool
deriving DecidableEq

/-- State of a SerialHandler instance.  The status callback is modelled
by returning the list of (status, message) invocations performed by an
operation rather than by storing a function. -/
structure SerialHandler where
  port : String
  baud_rate : Nat
  serial : Option SerialPort
  status : ConnectionStatus
  error_message : String
deriving DecidableEq

/-- Outcome of the transport-open call (serial.Serial(...)): success, a
SerialException with the given text, or any other exception with the
given text. -/
inductive OpenResult where
  | success
  | serialExn (e : String)
  | otherExn (e : String)
deriving DecidableEq

/-- Outcome of the transport write call: the reported number of bytes
written, a SerialException, or any other exception. -/
inductive WriteResult where
  | written (n : Nat)
  | serialExn (e : String)
  | otherExn (e : String)
deriving DecidableEq

/-- Constructor state: SerialHandler.__init__. -/
def init_handler (port : String) (baud_rate : Nat) : SerialHandler :=
  { port := port, baud_rate := baud_rate, serial := none,
    status := ConnectionStatus.DISCONNECTED, error_message := "" }

/-- Embedding of SerialHandler._get_error_message: classify the
exception text by case-insensitive substring tests, in source order. -/
def get_error_message (self : SerialHandler) (exc : String) : String :=
  let error_str := py_to_lower exc.data
  if containsSubstr error_str "no such file".data || containsSubstr error_str "not found".data then
    "Serial port " ++ self.port ++ " not found"
  else if containsSubstr error_str "permission denied".data then
    "Permission denied. Check port access rights"
  else if containsSubstr error_str "access is denied".data then
    "Port is in use by another application"
  else
    exc

/-- Result of connect/retry: the new handler state, the returned bool,
and the (status, message) pairs passed to the status callback, in
order. -/
structure ConnectResult where
  state : SerialHandler
  ok : Bool
  notifications : List (ConnectionStatus × String)
deriving DecidableEq

/-- Embedding of SerialHandler.connect.  _update_status(CONNECTING) runs
first; then the transport open either yields an open port (success), or
raises: a SerialException is classified through get_error_message, any
other exception is reported with its raw text.  On either failure the
handle is set to none. -/
def connect (self : SerialHandler) (o : OpenResult) : ConnectResult :=
  let s1 : SerialHandler := { self with status := ConnectionStatus.CONNECTING, error_message := "" }
  let n1 : ConnectionStatus × String := (ConnectionStatus.CONNECTING, "")
  match o with
  | OpenResult.success =>
      let s2 : SerialHandler :=
        { s1 with serial := some { is_open := true },
                  status := ConnectionStatus.CONNECTED, error_message := "" }
      { state := s2, ok := true, notifications := [n1, (ConnectionStatus.CONNECTED, "")] }
  | OpenResult.serialExn e =>
      let msg := get_error_message self e
      let s2 : SerialHandler :=
        { s1 with serial := none, status := ConnectionStatus.ERROR, error_message := msg }
      { state := s2, ok := false, notifications := [n1, (ConnectionStatus.ERROR, msg)] }
  | OpenResult.otherExn e =>
      let s2 : SerialHandler :=
        { s1 with serial := none, status := ConnectionStatus.ERROR, error_message := e }
      { state := s2, ok := false, notifications := [n1, (ConnectionStatus.ERROR, e)] }

/-- Embedding of SerialHandler.disconnect: close the port if open (an
effect on the dropped transport object only) and drop the handle.
Status, error message and callback are untouched by the source. -/
def disconnect (self : SerialHandler) : SerialHandler :=
  { self with serial := none }

/-- Embedding of SerialHandler.is_connected: a handle is present and
reports itself open. -/
def is_connected (self : SerialHandler) : Bool :=
  match self.serial with
  | some p => p.is_open
  | none => false

/-- Embedding of SerialHandler.retry: disconnect, then connect, and
return the connect result. -/
def retry (self : SerialHandler) (o : OpenResult) : ConnectResult :=
  connect (disconnect self) o

/-- Result of send: the new handler state, the returned (bool, message)
pair, and the bytes handed to the transport write (none when no write
was attempted). -/
structure SendResult where
  state : SerialHandler
  ok : Bool
  message : String
  written : Option (List Nat)
deriving DecidableEq

/-- Embedding of SerialHandler.send: fail fast when not connected;
otherwise encode str(value) as ISO-8859-1 bytes, write them, and compare
the reported count with the request.  Exceptions during the write become
failure results.  No field of the handler is assigned anywhere in the
source of send. -/
def send (self : SerialHandler) (value : Int) (w : WriteResult) : SendResult :=
  if !is_connected self then
    { state := self, ok := false, message := "Error: Not connected to serial port", written := none }
  else
    let ascii_string := py_str_int value
    let encoded_data := py_encode_latin1 ascii_string
    match w with
    | WriteResult.written bytes_written =>
        if bytes_written = encoded_data.length then
          { state := self, ok := true, message := "Sent: " ++ String.mk ascii_string,
            written := some encoded_data }
        else
          { state := self, ok := false, message := "Error: Incomplete transmission",
            written := some encoded_data }
    | WriteResult.serialExn e =>
        { state := self, ok := false, message := "Error: " ++ e, written := some encoded_data }
    | WriteResult.otherExn e =>
        { state := self, ok := false, message := "Error: " ++ e, written := some encoded_data }

/-! ## Operation sequences -/

/-- One externally visible operation on a handler, tagged with the
transport outcome it runs against. -/
inductive Op where
  | connect (o : OpenResult)
  | disconnect
  | retry (o : OpenResult)
  | send (v : Int) (w : WriteResult)
deriving DecidableEq

/-- State reached after one operation. -/
def step (self : SerialHandler) : Op → SerialHandler
  | Op.connect o => (connect self o).state
  | Op.disconnect => disconnect self
  | Op.retry o => (retry self o).state
  | Op.send v w => (send self v w).state

/-- State reached after a sequence of operations. -/
def run (self : SerialHandler) : List Op → SerialHandler
  | [] => self
  | op :: ops => run (step self op) ops

/-- Transport error texts an operation carries into the handler. -/
def op_error_texts : Op → List String
  | Op.connect (OpenResult.serialExn e) => [e]
  | Op.connect (OpenResult.otherExn e) => [e]
  | Op.retry (OpenResult.serialExn e) => [e]
  | Op.retry (OpenResult.otherExn e) => [e]
  | _ => []

/-- A string holds, beyond one optional leading minus sign, some
character that is not a decimal digit. -/
def non_digit_beyond_dash (l : List Char) : Bool :=
  !((if starts_with_dash l then l.drop 1 else l).all Char.isDigit)

/-- Value of a digit list given least-significant first (proof helper,
the reversed counterpart of py_int_digits). -/
def py_int_rev : List Char → Nat
  | [] => 0
  | c :: t => py_digit_val c + 10 * py_int_rev t

/-- Case-insensitive substring test on whole strings, as the spec
phrases the classification conditions. -/
def occurs_ci (e pat : String) : Bool :=
  containsSubstr (py_to_lower e.data) pat.data

/-! ## Helper lemmas -/

theorem digitChar_spec (d : Nat) (hd : d < 10) :
    (Nat.digitChar d).isDigit = true ∧ Nat.digitChar d ≠ '-' ∧
    py_isspace (Nat.digitChar d) = false ∧ (Nat.digitChar d).toNat < 256 ∧
    py_digit_val (Nat.digitChar d) = d := by
  interval_cases d <;> exact ⟨by decide, by decide, by decide, by decide, by decide⟩

theorem py_str_nat_rev_mem (fuel n : Nat) (c : Char) (hc : c ∈ py_str_nat_rev fuel n) :
    ∃ d, d < 10 ∧ c = Nat.digitChar d := by
  induction fuel generalizing n with
  | zero => simp [py_str_nat_rev] at hc
  | succ fuel ih =>
      rw [py_str_nat_rev] at hc
      by_cases h0 : n = 0
      · simp [h0] at hc
      · rw [if_neg h0] at hc
        rcases List.mem_cons.mp hc with h | h
        · exact ⟨n % 10, Nat.mod_lt _ (by norm_num), h⟩
        · exact ih _ h

theorem py_str_nat_mem (n : Nat) (c : Char) (hc : c ∈ py_str_nat n) :
    ∃ d, d < 10 ∧ c = Nat.digitChar d := by
  rw [py_str_nat] at hc
  by_cases h0 : n = 0
  · rw [if_pos h0] at hc
    simp only [List.mem_singleton] at hc
    exact ⟨0, by norm_num, hc⟩
  · rw [if_neg h0, List.mem_reverse] at hc
    exact py_str_nat_rev_mem _ _ _ hc

theorem py_str_nat_ne_nil (n : Nat) : py_str_nat n ≠ [] := by
  rw [py_str_nat]
  by_cases h0 : n = 0
  · simp [h0]
  · rw [if_neg h0, py_str_nat_rev, if_neg h0]
    simp

theorem py_int_digits_append_singleton (l : List Char) (c : Char) :
    py_int_digits (l ++ [c]) = 10 * py_int_digits l + py_digit_val c := by
  simp [py_int_digits, List.foldl_append]

theorem py_int_digits_reverse (l : List Char) :
    py_int_digits l.reverse = py_int_rev l := by
  induction l with
  | nil => rfl
  | cons c t ih =>
      rw [List.reverse_cons, py_int_digits_append_singleton, ih, py_int_rev]
      omega

theorem py_str_nat_rev_roundtrip (fuel n : Nat) (h : n < fuel) :
    py_int_rev (py_str_nat_rev fuel n) = n := by
  induction fuel generalizing n with
  | zero => omega
  | succ fuel ih =>
      rw [py_str_nat_rev]
      by_cases h0 : n = 0
      · simp [h0, py_int_rev]
      · rw [if_neg h0, py_int_rev]
        have hdiv : n / 10 < fuel := by
          have h1 : n / 10 < n := Nat.div_lt_self (Nat.pos_of_ne_zero h0) (by norm_num)
          omega
        rw [ih _ hdiv, (digitChar_spec (n % 10) (Nat.mod_lt _ (by norm_num))).2.2.2.2]
        omega

theorem py_int_digits_py_str_nat (n : Nat) : py_int_digits (py_str_nat n) = n := by
  rw [py_str_nat]
  by_cases h0 : n = 0
  · simp [h0, py_int_digits, py_digit_val]
  · rw [if_neg h0, py_int_digits_reverse, py_str_nat_rev_roundtrip _ _ (Nat.lt_succ_self n)]

theorem dropWhile_isspace_eq_self (l : List Char) (h : ∀ c ∈ l, py_isspace c = false) :
    l.dropWhile py_isspace = l := by
  cases l with
  | nil => rfl
  | cons c t =>
      rw [List.dropWhile_cons, h c (List.mem_cons_self c t)]
      simp

theorem dropWhile_isspace_eq_nil (l : List Char) (h : ∀ c ∈ l, py_isspace c = true) :
    l.dropWhile py_isspace = [] := by
  induction l with
  | nil => rfl
  | cons c t ih =>
      rw [List.dropWhile_cons, h c (List.mem_cons_self c t)]
      exact if_pos rfl ▸ ih (fun x hx => h x (List.mem_cons_of_mem c hx))

theorem py_strip_eq_self (l : List Char) (h : ∀ c ∈ l, py_isspace c = false) :
    py_strip l = l := by
  rw [py_strip, dropWhile_isspace_eq_self l h,
      dropWhile_isspace_eq_self l.reverse (fun c hc => h c (List.mem_reverse.mp hc)),
      List.reverse_reverse]

theorem py_strip_eq_nil (l : List Char) (h : ∀ c ∈ l, py_isspace c = true) :
    py_strip l = [] := by
  rw [py_strip, dropWhile_isspace_eq_nil l h]
  rfl

theorem send_state_eq (self : SerialHandler) (v : Int) (w : WriteResult) :
    (send self v w).state = self := by
  rw [send]
  by_cases h : is_connected self
  · rw [if_neg (by simp [h])]
    cases w with
    | written n =>
        by_cases hn : n = (py_encode_latin1 (py_str_int v)).length
        · simp [hn]
        · simp [hn]
    | serialExn e => rfl
    | otherExn e => rfl
  · rw [if_pos (by simp [h])]

theorem get_error_message_ne_empty (self : SerialHandler) (e : String) (he : e ≠ "") :
    get_error_message self e ≠ "" := by
  rw [get_error_message]
  split
  · intro h
    have h2 := congrArg String.length h
    rw [String.length_append, String.length_append] at h2
    have l1 : "Serial port ".length = 12 := rfl
    have l2 : " not found".length = 10 := rfl
    have l3 : "".length = 0 := rfl
    omega
  · split
    · exact fun h => absurd h (by decide)
    · split
      · exact fun h => absurd h (by decide)
      · exact he

theorem run_preserves (P : SerialHandler → Prop) (ops : List Op) (s : SerialHandler)
    (hs : P s) (hstep : ∀ t op, op ∈ ops → P t → P (step t op)) :
    P (run s ops) := by
  induction ops generalizing s with
  | nil => exact hs
  | cons op ops ih =>
      exact ih (step s op) (hstep s op (List.mem_cons_self op ops) hs)
        (fun t o ho ht => hstep t o (List.mem_cons_of_mem op ho) ht)

theorem py_str_nat_all_digit (n : Nat) : ∀ c ∈ py_str_nat n, c.isDigit = true := by
  intro c hc
  obtain ⟨d, hd, rfl⟩ := py_str_nat_mem n c hc
  exact (digitChar_spec d hd).1

theorem py_str_nat_no_space (n : Nat) : ∀ c ∈ py_str_nat n, py_isspace c = false := by
  intro c hc
  obtain ⟨d, hd, rfl⟩ := py_str_nat_mem n c hc
  exact (digitChar_spec d hd).2.2.1

theorem py_str_nat_no_dash (n : Nat) : ∀ c ∈ py_str_nat n, c ≠ '-' := by
  intro c hc
  obtain ⟨d, hd, rfl⟩ := py_str_nat_mem n c hc
  exact (digitChar_spec d hd).2.1

theorem py_str_int_char_lt_256 (v : Int) : ∀ c ∈ py_str_int v, c.toNat < 256 := by
  intro c hc
  rw [py_str_int] at hc
  have hnat : ∀ m, c ∈ py_str_nat m → c.toNat < 256 := by
    intro m hm
    obtain ⟨d, hd, rfl⟩ := py_str_nat_mem m c hm
    exact (digitChar_spec d hd).2.2.2.1
  by_cases hv : v < 0
  · rw [if_pos hv] at hc
    rcases List.mem_cons.mp hc with h | h
    · rw [h]; decide
    · exact hnat _ h
  · rw [if_neg hv] at hc
    exact hnat _ hc

theorem validate_digit_list (l : List Char) (hne : l ≠ [])
    (hdig : ∀ c ∈ l, c.isDigit = true)
    (hdash : ∀ c ∈ l, c ≠ '-')
    (hns : ∀ c ∈ l, py_isspace c = false) :
    validate (String.mk l) =
      (if (py_int_digits l : Int) > MAX_VALUE then
        (false, "Invalid: Max value is " ++ toString MAX_VALUE)
       else (true, "")) := by
  obtain ⟨c, t, rfl⟩ : ∃ c t, l = c :: t := by
    cases l with
    | nil => exact absurd rfl hne
    | cons c t => exact ⟨c, t, rfl⟩
  have hstrip : py_strip (c :: t) = c :: t := py_strip_eq_self _ hns
  have hdashc : (c == '-') = false :=
    beq_eq_false_iff_ne.mpr (hdash c (List.mem_cons_self c t))
  have hdigall : (c :: t).all Char.isDigit = true := List.all_eq_true.mpr hdig
  have hd : (String.mk (c :: t)).data = c :: t := rfl
  simp only [validate, hd, hstrip]
  rw [List.isEmpty_cons]
  simp only [Bool.or_self, Bool.false_eq_true, if_false, starts_with_dash, hdashc,
    Bool.false_eq_true, if_false, py_isdigit, List.isEmpty_cons, hdigall, Bool.not_false,
    Bool.and_true, Bool.not_true, if_false]
  rw [if_neg (not_lt.mpr (by rw [MIN_VALUE]; exact Int.natCast_nonneg _))]

theorem validate_dash_digit_list (l : List Char) (hne : l ≠ [])
    (hdig : ∀ c ∈ l, c.isDigit = true)
    (hns : ∀ c ∈ l, py_isspace c = false)
    (hpos : 0 < py_int_digits l) :
    validate (String.mk ('-' :: l)) = (false, "Invalid: Min value is " ++ toString MIN_VALUE) := by
  have hns2 : ∀ c ∈ '-' :: l, py_isspace c = false := by
    intro c hc
    rcases List.mem_cons.mp hc with h | h
    · rw [h]; decide
    · exact hns c h
  have hstrip : py_strip ('-' :: l) = '-' :: l := py_strip_eq_self _ hns2
  have hdigall : l.all Char.isDigit = true := List.all_eq_true.mpr hdig
  have hlne : l.isEmpty = false := by
    cases l with
    | nil => exact absurd rfl hne
    | cons c t => rfl
  have hd : (String.mk ('-' :: l)).data = '-' :: l := rfl
  simp only [validate, hd, hstrip]
  rw [List.isEmpty_cons]
  simp only [Bool.or_self, Bool.false_eq_true, if_false, starts_with_dash, beq_self_eq_true,
    if_true, List.drop_one, List.tail_cons, py_isdigit, hlne, hdigall, Bool.not_false,
    Bool.and_true, Bool.not_true, if_false]
  rw [if_pos (by rw [MIN_VALUE]; omega)]

/-! ## Claim theorems -/

/-- C8: retry() performs disconnect() followed by connect() on the same
manager state and returns exactly the connect() result; in particular
after a failed connect() (status Error), a retry() whose transport open
succeeds ends with status Connected and returns success. -/
theorem retry_is_disconnect_then_connect (self : SerialHandler) (o : OpenResult) (e : String) :
    retry self o = connect (disconnect self) o
    ∧ (connect self (OpenResult.serialExn e)).state.status = ConnectionStatus.ERROR
    ∧ (retry (connect self (OpenResult.serialExn e)).state OpenResult.success).ok = true
    ∧ (retry (connect self (OpenResult.serialExn e)).state OpenResult.success).state.status
        = ConnectionStatus.CONNECTED :=
  ⟨rfl, rfl, rfl, rfl⟩

/-- C3: send on a manager that is not connected fails with the
"not connected" message and attempts no transport write; and in every
case send leaves the whole handler state (status, error message,
transport handle) unchanged. -/
theorem send_not_connected_and_state_unchanged (self : SerialHandler) (v : Int) (w : WriteResult) :
    (send self v w).state = self
    ∧ (is_connected self = false →
        (send self v w).ok = false
        ∧ (send self v w).message = "Error: Not connected to serial port"
        ∧ (send self v w).written = none) := by
  refine ⟨send_state_eq self v w, fun h => ?_⟩
  rw [send, if_pos (by simp [h])]
  exact ⟨rfl, rfl, rfl⟩

/-- Witness for C3 at the freshly constructed handler. -/
theorem send_not_connected_and_state_unchanged_witness :
    (send (init_handler SERIAL_PORT BAUD_RATE) 50 (WriteResult.written 2)).ok = false
    ∧ (send (init_handler SERIAL_PORT BAUD_RATE) 50 (WriteResult.written 2)).message
        = "Error: Not connected to serial port" :=
  ⟨((send_not_connected_and_state_unchanged (init_handler SERIAL_PORT BAUD_RATE) 50
      (WriteResult.written 2)).2 (by decide)).1,
   ((send_not_connected_and_state_unchanged (init_handler SERIAL_PORT BAUD_RATE) 50
      (WriteResult.written 2)).2 (by decide)).2.1⟩

/-- C4 counterexample: when the transport open raises an exception that
is not a SerialException and whose text happens to match a
classification pattern, connect notifies the raw exception text, not
the classified message the claim requires. -/
theorem connect_other_exception_raw_message :
    (connect (init_handler SERIAL_PORT BAUD_RATE)
        (OpenResult.otherExn "device not found")).notifications
      = [(ConnectionStatus.CONNECTING, ""), (ConnectionStatus.ERROR, "device not found")]
    ∧ get_error_message (init_handler SERIAL_PORT BAUD_RATE) "device not found"
        = "Serial port /dev/ttyUSB2 not found"
    ∧ "device not found" ≠ "Serial port /dev/ttyUSB2 not found" :=
  ⟨by decide, by decide, by decide⟩

/-- C4 (amended): every connect() call invokes the registered status
callback exactly twice: first with (Connecting, ""); then, on a
successful open, with (Connected, "") and connect returns success; on a
transport-level (SerialException) open failure, with Error and the
classified message; on any other exception, with Error and the raw
exception text; connect returns failure in both failure cases. -/
theorem connect_notifications_exact (self : SerialHandler) (o : OpenResult) :
    (connect self o).notifications.length = 2
    ∧ (connect self o).notifications =
        (match o with
          | OpenResult.success =>
              [(ConnectionStatus.CONNECTING, ""), (ConnectionStatus.CONNECTED, "")]
          | OpenResult.serialExn e =>
              [(ConnectionStatus.CONNECTING, ""), (ConnectionStatus.ERROR, get_error_message self e)]
          | OpenResult.otherExn e =>
              [(ConnectionStatus.CONNECTING, ""), (ConnectionStatus.ERROR, e)])
    ∧ (connect self o).ok = (match o with | OpenResult.success => true | _ => false) := by
  cases o <;> exact ⟨rfl, rfl, rfl⟩

/-- C5: connect-failure classification inspects the error text
case-insensitively and in source order: "no such file" or "not found"
give the port-not-found message with the manager's port substituted;
otherwise "permission denied" gives the access-rights message; otherwise
"access is denied" gives the port-in-use message; otherwise the raw
error text passes through unchanged. -/
theorem error_classification_order (self : SerialHandler) (e : String) :
    ((occurs_ci e "no such file" || occurs_ci e "not found") = true →
        get_error_message self e = "Serial port " ++ self.port ++ " not found")
    ∧ ((occurs_ci e "no such file" || occurs_ci e "not found") = false →
        occurs_ci e "permission denied" = true →
        get_error_message self e = "Permission denied. Check port access rights")
    ∧ ((occurs_ci e "no such file" || occurs_ci e "not found") = false →
        occurs_ci e "permission denied" = false →
        occurs_ci e "access is denied" = true →
        get_error_message self e = "Port is in use by another application")
    ∧ ((occurs_ci e "no such file" || occurs_ci e "not found") = false →
        occurs_ci e "permission denied" = false →
        occurs_ci e "access is denied" = false →
        get_error_message self e = e) := by
  simp only [occurs_ci]
  refine ⟨fun h1 => ?_, fun h1 h2 => ?_, fun h1 h2 h3 => ?_, fun h1 h2 h3 => ?_⟩ <;>
    simp only [get_error_message]
  · rw [if_pos h1]
  · rw [if_neg (by simp [h1]), if_pos h2]
  · rw [if_neg (by simp [h1]), if_neg (by simp [h2]), if_pos h3]
  · rw [if_neg (by simp [h1]), if_neg (by simp [h2]), if_neg (by simp [h3])]

/-- Witness for C5: a mixed-case "PERMISSION DENIED" is classified to
the access-rights message. -/
theorem error_classification_order_witness :
    get_error_message (init_handler SERIAL_PORT BAUD_RATE) "PERMISSION DENIED"
      = "Permission denied. Check port access rights" :=
  (error_classification_order (init_handler SERIAL_PORT BAUD_RATE) "PERMISSION DENIED").2.1
    (by decide) (by decide)

/-- C10: send performs no range or sign check of its own: for every
integer v (negative or above 100 included), a connected manager whose
transport accepts the full write transmits the encoded decimal
representation of v (with a leading minus sign when v is negative) and
returns success with the "Sent: " message carrying that
representation. -/
theorem send_no_range_check (self : SerialHandler) (v : Int) (h : is_connected self = true) :
    (send self v (WriteResult.written (py_encode_latin1 (py_str_int v)).length)).ok = true
    ∧ (send self v (WriteResult.written (py_encode_latin1 (py_str_int v)).length)).message
        = "Sent: " ++ String.mk (py_str_int v)
    ∧ (send self v (WriteResult.written (py_encode_latin1 (py_str_int v)).length)).written
        = some (py_encode_latin1 (py_str_int v))
    ∧ (v < 0 → starts_with_dash (py_str_int v) = true) := by
  rw [send, if_neg (by simp [h])]
  refine ⟨by simp, by simp, by simp, fun hv => ?_⟩
  rw [py_str_int, if_pos hv]
  rfl

/-- Witness for C10 at the out-of-range value -5 on a connected
handler. -/
theorem send_no_range_check_witness :
    (send ((connect (init_handler SERIAL_PORT BAUD_RATE) OpenResult.success).state) (-5)
        (WriteResult.written (py_encode_latin1 (py_str_int (-5))).length)).ok = true
    ∧ (send ((connect (init_handler SERIAL_PORT BAUD_RATE) OpenResult.success).state) (-5)
        (WriteResult.written (py_encode_latin1 (py_str_int (-5))).length)).message
        = "Sent: " ++ String.mk (py_str_int (-5)) :=
  ⟨(send_no_range_check _ (-5) (by decide)).1,
   (send_no_range_check _ (-5) (by decide)).2.1⟩

/-- C1 counterexample: after a successful connect followed by
disconnect, the transport handle is gone (isConnected reports false)
while status still reads Connected, because disconnect never updates
the status field. -/
theorem disconnect_leaves_status_connected :
    (run (init_handler SERIAL_PORT BAUD_RATE)
        [Op.connect OpenResult.success, Op.disconnect]).status = ConnectionStatus.CONNECTED
    ∧ is_connected (run (init_handler SERIAL_PORT BAUD_RATE)
        [Op.connect OpenResult.success, Op.disconnect]) = false :=
  ⟨rfl, rfl⟩

/-- C1 (amended): in every state reachable by connect, disconnect,
retry and send from the initial state, a present transport handle is
open and implies status Connected; hence isConnected() true implies
status = Connected.  The converse direction of the claimed invariant
fails, because disconnect() removes the handle without updating the
status. -/
theorem handle_open_implies_connected (port : String) (baud : Nat) (ops : List Op)
    (h : is_connected (run (init_handler port baud) ops) = true) :
    (run (init_handler port baud) ops).status = ConnectionStatus.CONNECTED
    ∧ (∃ p, (run (init_handler port baud) ops).serial = some p ∧ p.is_open = true) := by
  have key := run_preserves
    (fun s => ∀ p, s.serial = some p → p.is_open = true ∧ s.status = ConnectionStatus.CONNECTED)
    ops (init_handler port baud)
    (by intro p hp; simp [init_handler] at hp)
    (by
      intro t op _ ht
      cases op with
      | connect o =>
          cases o with
          | success =>
              intro p hp
              simp only [step, connect] at hp
              rw [Option.some.injEq] at hp
              exact ⟨hp ▸ rfl, rfl⟩
          | serialExn e => intro p hp; simp [step, connect] at hp
          | otherExn e => intro p hp; simp [step, connect] at hp
      | disconnect => intro p hp; simp [step, disconnect] at hp
      | retry o =>
          cases o with
          | success =>
              intro p hp
              simp only [step, retry, connect] at hp
              rw [Option.some.injEq] at hp
              exact ⟨hp ▸ rfl, rfl⟩
          | serialExn e => intro p hp; simp [step, retry, connect] at hp
          | otherExn e => intro p hp; simp [step, retry, connect] at hp
      | send v w =>
          have hst : step t (Op.send v w) = t := send_state_eq t v w
          rw [hst]
          exact ht)
  rw [is_connected] at h
  cases hser : (run (init_handler port baud) ops).serial with
  | none => rw [hser] at h; exact absurd h (by simp)
  | some p =>
      obtain ⟨hopen, hstat⟩ := key p hser
      exact ⟨hstat, p, rfl, hopen⟩

/-- Witness for C1 (amended) after one successful connect. -/
theorem handle_open_implies_connected_witness :
    (run (init_handler SERIAL_PORT BAUD_RATE) [Op.connect OpenResult.success]).status
      = ConnectionStatus.CONNECTED :=
  (handle_open_implies_connected SERIAL_PORT BAUD_RATE [Op.connect OpenResult.success]
    (by decide)).1

/-- C9 counterexample: a connect failure whose underlying transport
error text is empty leaves status Error with an empty
lastErrorMessage, because classification passes the empty text
through. -/
theorem empty_error_text_gives_error_status_empty_message :
    (run (init_handler SERIAL_PORT BAUD_RATE)
        [Op.connect (OpenResult.serialExn "")]).status = ConnectionStatus.ERROR
    ∧ (run (init_handler SERIAL_PORT BAUD_RATE)
        [Op.connect (OpenResult.serialExn "")]).error_message = "" :=
  ⟨rfl, rfl⟩

/-- C9 (amended): in every reachable state a non-empty lastErrorMessage
implies status Error; and whenever every underlying transport error
text occurring in the operation sequence is non-empty, lastErrorMessage
is non-empty exactly when status = Error.  An empty transport error
text defeats the right-to-left direction. -/
theorem error_message_iff_error_status (port : String) (baud : Nat) (ops : List Op) :
    ((run (init_handler port baud) ops).status ≠ ConnectionStatus.ERROR →
        (run (init_handler port baud) ops).error_message = "")
    ∧ ((∀ op ∈ ops, ∀ e ∈ op_error_texts op, e ≠ "") →
        ((run (init_handler port baud) ops).error_message ≠ "" ↔
          (run (init_handler port baud) ops).status = ConnectionStatus.ERROR)) := by
  constructor
  · exact run_preserves
      (fun s => s.status ≠ ConnectionStatus.ERROR → s.error_message = "")
      ops (init_handler port baud)
      (fun _ => rfl)
      (by
        intro t op _ ht
        cases op with
        | connect o => cases o with
          | success => exact fun _ => rfl
          | serialExn e => exact fun hne => absurd rfl hne
          | otherExn e => exact fun hne => absurd rfl hne
        | disconnect => exact ht
        | retry o => cases o with
          | success => exact fun _ => rfl
          | serialExn e => exact fun hne => absurd rfl hne
          | otherExn e => exact fun hne => absurd rfl hne
        | send v w =>
            have hst : step t (Op.send v w) = t := send_state_eq t v w
            rw [hst]
            exact ht)
  · intro hgood
    exact run_preserves
      (fun s => (s.error_message ≠ "" ↔ s.status = ConnectionStatus.ERROR))
      ops (init_handler port baud)
      (by simp [init_handler])
      (by
        intro t op hop ht
        cases op with
        | connect o => cases o with
          | success => simp [step, connect]
          | serialExn e =>
              have he : e ≠ "" := hgood _ hop e (List.mem_singleton.mpr rfl)
              exact ⟨fun _ => rfl, fun _ => get_error_message_ne_empty t e he⟩
          | otherExn e =>
              have he : e ≠ "" := hgood _ hop e (List.mem_singleton.mpr rfl)
              exact ⟨fun _ => rfl, fun _ => he⟩
        | disconnect => exact ht
        | retry o => cases o with
          | success => simp [step, retry, connect]
          | serialExn e =>
              have he : e ≠ "" := hgood _ hop e (List.mem_singleton.mpr rfl)
              exact ⟨fun _ => rfl, fun _ => get_error_message_ne_empty (disconnect t) e he⟩
          | otherExn e =>
              have he : e ≠ "" := hgood _ hop e (List.mem_singleton.mpr rfl)
              exact ⟨fun _ => rfl, fun _ => he⟩
        | send v w =>
            have hst : step t (Op.send v w) = t := send_state_eq t v w
            rw [hst]
            exact ht)

/-- Witness for C9 (amended): a failed connect with a non-empty error
text yields the equivalence. -/
theorem error_message_iff_error_status_witness :
    ((run (init_handler SERIAL_PORT BAUD_RATE)
        [Op.connect (OpenResult.serialExn "Permission denied")]).error_message ≠ ""
      ↔ (run (init_handler SERIAL_PORT BAUD_RATE)
        [Op.connect (OpenResult.serialExn "Permission denied")]).status
          = ConnectionStatus.ERROR) :=
  (error_message_iff_error_status SERIAL_PORT BAUD_RATE
    [Op.connect (OpenResult.serialExn "Permission denied")]).2 (by decide)

/-- C2: send on a connected manager encodes the decimal representation
of v as its single-byte ISO-8859-1 code points (each below 256) and
hands exactly those bytes to the transport write; when the reported
count equals the encoded length it returns success with the "Sent: "
message carrying the value, and when the reported count is smaller it
returns failure with the incomplete-transmission message. -/
theorem send_writes_ascii_representation (self : SerialHandler) (v : Int)
    (h : is_connected self = true) :
    (∀ w, (send self v w).written = some (py_encode_latin1 (py_str_int v)))
    ∧ py_encode_latin1 (py_str_int v) = (py_str_int v).map Char.toNat
    ∧ (∀ b ∈ py_encode_latin1 (py_str_int v), b < 256)
    ∧ (∀ n, n = (py_encode_latin1 (py_str_int v)).length →
        (send self v (WriteResult.written n)).ok = true
        ∧ (send self v (WriteResult.written n)).message = "Sent: " ++ String.mk (py_str_int v))
    ∧ (∀ n, n < (py_encode_latin1 (py_str_int v)).length →
        (send self v (WriteResult.written n)).ok = false
        ∧ (send self v (WriteResult.written n)).message = "Error: Incomplete transmission") := by
  refine ⟨?_, rfl, ?_, ?_, ?_⟩
  · intro w
    rw [send, if_neg (by simp [h])]
    cases w with
    | written n =>
        dsimp only
        split <;> rfl
    | serialExn e => rfl
    | otherExn e => rfl
  · intro b hb
    rw [py_encode_latin1] at hb
    obtain ⟨c, hc, rfl⟩ := List.mem_map.mp hb
    exact py_str_int_char_lt_256 v c hc
  · intro n hn
    subst hn
    rw [send, if_neg (by simp [h])]
    dsimp only
    rw [if_pos rfl]
    exact ⟨rfl, rfl⟩
  · intro n hn
    rw [send, if_neg (by simp [h])]
    dsimp only
    rw [if_neg (Nat.ne_of_lt hn)]
    exact ⟨rfl, rfl⟩

/-- Witness for C2: send(50) on a connected handler with a full
2-byte write succeeds and hands the ASCII bytes of "50" to the
transport. -/
theorem send_writes_ascii_representation_witness :
    (send ((connect (init_handler SERIAL_PORT BAUD_RATE) OpenResult.success).state) 50
        (WriteResult.written 2)).ok = true
    ∧ (send ((connect (init_handler SERIAL_PORT BAUD_RATE) OpenResult.success).state) 50
        (WriteResult.written 2)).written = some [53, 48] := by
  have h := send_writes_ascii_representation
      ((connect (init_handler SERIAL_PORT BAUD_RATE) OpenResult.success).state) 50 (by decide)
  refine ⟨(h.2.2.2.1 2 (by decide)).1, ?_⟩
  rw [h.1 (WriteResult.written 2)]
  decide

/-- C6: validate on the decimal string of an integer v accepts with an
empty message exactly the values between MIN_VALUE = 0 and
MAX_VALUE = 100; negative values are rejected with the message naming
the minimum and values above 100 with the message naming the maximum;
empty and whitespace-only input is accepted with an empty message. -/
theorem validate_int_range (v : Int) (s : String) (hs : ∀ c ∈ s.data, py_isspace c = true) :
    validate (String.mk (py_str_int v)) =
      (if v < MIN_VALUE then (false, "Invalid: Min value is 0")
       else if v > MAX_VALUE then (false, "Invalid: Max value is 100")
       else (true, ""))
    ∧ (validate (String.mk (py_str_int v)) = (true, "") ↔ (MIN_VALUE ≤ v ∧ v ≤ MAX_VALUE))
    ∧ validate s = (true, "") := by
  have hmin : ("Invalid: Min value is " ++ toString MIN_VALUE) = "Invalid: Min value is 0" := by
    decide
  have hmax : ("Invalid: Max value is " ++ toString MAX_VALUE) = "Invalid: Max value is 100" := by
    decide
  have hmain : validate (String.mk (py_str_int v)) =
      (if v < MIN_VALUE then (false, "Invalid: Min value is 0")
       else if v > MAX_VALUE then (false, "Invalid: Max value is 100")
       else (true, "")) := by
    rw [py_str_int]
    by_cases hv : v < 0
    · rw [if_pos hv]
      have hpos : 0 < py_int_digits (py_str_nat v.natAbs) := by
        rw [py_int_digits_py_str_nat]
        exact Int.natAbs_pos.mpr (ne_of_lt hv)
      rw [validate_dash_digit_list _ (py_str_nat_ne_nil _) (py_str_nat_all_digit _)
            (py_str_nat_no_space _) hpos, hmin,
          if_pos (show v < MIN_VALUE by rw [MIN_VALUE]; exact hv)]
    · rw [if_neg hv]
      rw [validate_digit_list _ (py_str_nat_ne_nil _) (py_str_nat_all_digit _)
            (py_str_nat_no_dash _) (py_str_nat_no_space _),
          py_int_digits_py_str_nat, Int.toNat_of_nonneg (not_lt.mp hv), hmax,
          if_neg (show ¬v < MIN_VALUE by rw [MIN_VALUE]; exact hv)]
  refine ⟨hmain, ?_, ?_⟩
  · rw [hmain, MIN_VALUE, MAX_VALUE]
    split_ifs with h1 h2 <;> simp <;> omega
  · simp [validate, py_strip_eq_nil s.data hs]

/-- Witness for C6 at the negative value -3 and a whitespace-only
string. -/
theorem validate_int_range_witness :
    validate (String.mk (py_str_int (-3))) = (false, "Invalid: Min value is 0")
    ∧ validate " " = (true, "") := by
  have h := validate_int_range (-3) " " (by decide)
  exact ⟨h.1.trans (by decide), h.2.2⟩

/-- C7 counterexample: the whitespace-only string " " holds a
non-digit character that is not a leading minus sign, yet validate
accepts it (empty and whitespace-only input is valid by design). -/
theorem validate_whitespace_only_accepted :
    non_digit_beyond_dash " ".data = true
    ∧ validate " " = (true, "")
    ∧ validate " " ≠ (false, "Invalid: Numbers only") :=
  ⟨by decide, by decide, by decide⟩

/-- C7 (amended): for every input string whose whitespace-trimmed
content is non-empty and holds, beyond a single optional leading minus
sign, any character that is not a decimal digit, validate returns
invalid with the "Numbers only" message.  (Strings whose trimmed
content is empty are instead accepted.) -/
theorem validate_non_digit_rejected (s : String)
    (h1 : py_strip s.data ≠ [])
    (h2 : non_digit_beyond_dash (py_strip s.data) = true) :
    validate s = (false, "Invalid: Numbers only") := by
  have hne : s.data.isEmpty = false := by
    cases hd : s.data with
    | nil => exact absurd (by rw [hd]; rfl) h1
    | cons c t => rfl
  have hse : (py_strip s.data).isEmpty = false := by
    cases hd : py_strip s.data with
    | nil => exact absurd hd h1
    | cons c t => rfl
  rw [non_digit_beyond_dash, Bool.not_eq_true'] at h2
  have hpd : py_isdigit
      (if starts_with_dash (py_strip s.data) then (py_strip s.data).drop 1
       else py_strip s.data) = false := by
    rw [py_isdigit, h2, Bool.and_false]
  simp only [validate, hne, hse, Bool.or_self, Bool.false_eq_true, if_false, hpd,
    Bool.not_false, if_true]

/-- Witness for C7 (amended) on the string "5a". -/
theorem validate_non_digit_rejected_witness :
    validate "5a" = (false, "Invalid: Numbers only") :=
  validate_non_digit_rejected "5a" (by decide) (by decide)

end RFSerial
